import Mathlib

/-!
Verification development for the Communication Analysis Engine of the
Mindmate-AI repository (file `src/agents/interpersonal_coach.py`).

Text is modelled as `List Char`.  The regular expressions used by the
source are all word-boundary-delimited literal phrases (with an optional
apostrophe or an optional alternation group), so each one is embedded as a
set of literal alternatives matched with explicit word-boundary checks,
plus one special pattern for the single rule of the form A.*B.
Python integers are modelled as ℤ and Python floats as exact rationals ℚ.
-/

namespace MindMate

/-- The apostrophe character (U+0027), built numerically. -/
def aposC : Char := Char.ofNat 39

/-- Splice an apostrophe between two string fragments. -/
def sq (a : String) (b : String) : List Char := a.toList ++ aposC :: b.toList

/-- ASCII lower-casing of one character, as Python `str.lower` acts on the
ASCII texts handled here. -/
def lowerChar (c : Char) : Char :=
  if 'A' ≤ c ∧ c ≤ 'Z' then Char.ofNat (c.toNat + 32) else c

/-- Python `text.lower()`. -/
def toLowerStr (s : List Char) : List Char := s.map lowerChar

/-- A regex word character, as in the `\b` semantics of the source patterns
(the texts involved are ASCII). -/
def isWordChar (c : Char) : Bool := c.isAlphanum || c == '_'

/-- `\b` holds before the current position: start of string or the previous
character is not a word character. -/
def boundaryBefore : Option Char → Bool
  | none => true
  | some c => !isWordChar c

/-- `\b` holds after a match ending right before `rest`. -/
def boundaryAfterOk : List Char → Bool
  | [] => true
  | c :: _ => !isWordChar c

/-- Case-insensitively consume the literal `p` from the front of `s`;
returns the last original character consumed and the remainder.
All phrases used are nonempty, so the `[]` pattern case is unreachable. -/
def ciConsume : List Char → List Char → Option (Char × List Char)
  | [], _ => none
  | [p], c :: cs => if lowerChar c = p then some (c, cs) else none
  | p :: q :: ps, c :: cs => if lowerChar c = p then ciConsume (q :: ps) cs else none
  | _, [] => none

/-- A bounded literal matches at the current position (word boundary after
the match included; the boundary before is checked by the caller). -/
def matchHere (p : List Char) (s : List Char) : Bool :=
  match ciConsume p s with
  | some (_, rest) => boundaryAfterOk rest
  | none => false

/-- Some alternative matches at the current position. -/
def anyHere (alts : List (List Char)) (s : List Char) : Bool :=
  alts.any fun a => matchHere a s

/-- Scan for a word-boundary-delimited occurrence of one of `alts`
(`re.search` of `\bA\b` with alternation), tracking the previous character. -/
def occursAux (alts : List (List Char)) : Option Char → List Char → Bool
  | _, [] => false
  | prev, c :: cs =>
      (boundaryBefore prev && anyHere alts (c :: cs)) || occursAux alts (some c) cs

/-- `re.search(\bA\b|...)` over the whole string. -/
def occursAny (alts : List (List Char)) (s : List Char) : Bool :=
  occursAux alts none s

/-- After a match of `i feel`, search the remainder for a bounded `when`
with no newline in the gap (`.` does not match a newline).  `prev` is the
character immediately before the current position. -/
def whenNoNl : Char → List Char → Bool
  | _, [] => false
  | prev, c :: cs =>
      ((!isWordChar prev) && matchHere ("when".toList) (c :: cs)) ||
        ((!(c = '\n')) && whenNoNl c cs)

/-- `re.search(r"\bi feel\b.*\bwhen\b", s)`. -/
def feelWhenScan : Option Char → List Char → Bool
  | _, [] => false
  | prev, c :: cs =>
      (boundaryBefore prev &&
        (match ciConsume ("i feel".toList) (c :: cs) with
         | some (last, rest) => boundaryAfterOk rest && whenNoNl last rest
         | none => false)) || feelWhenScan (some c) cs

/-- One source pattern: either a set of bounded literal alternatives, or
the special `\bi feel\b.*\bwhen\b` rule. -/
inductive Pat where
  | lits (alts : List (List Char))
  | feelWhen
deriving DecidableEq, Repr

/-- `re.search` of one pattern. -/
def patMatches : Pat → List Char → Bool
  | .lits alts, s => occursAny alts s
  | .feelWhen, s => feelWhenScan none s

/-! ### The pattern dictionaries of `analyze_interpersonal` (lines 380-419) -/

/-- Aggressive patterns, in source order. -/
def aggressivePats : List Pat :=
  [ .lits [("you always".toList)],
    .lits [("you never".toList)],
    .lits [("you should".toList)],
    .lits [sq ("why didn") ("t you"), ("why didnt you".toList)],
    .lits [sq ("what") ("s wrong with you"), ("whats wrong with you".toList)],
    .lits [("you need to".toList)],
    .lits [sq ("you") ("re being stupid"), sq ("you") ("re being lazy"),
           sq ("you") ("re being useless"),
           sq ("you") ("re stupid"), sq ("you") ("re lazy"), sq ("you") ("re useless"),
           ("youre being stupid".toList), ("youre being lazy".toList),
           ("youre being useless".toList),
           ("youre stupid".toList), ("youre lazy".toList), ("youre useless".toList)] ]

/-- Passive patterns, in source order. -/
def passivePats : List Pat :=
  [ .lits [("maybe we could".toList)],
    .lits [("i guess".toList)],
    .lits [("sorry, but".toList), ("sorry but".toList)],
    .lits [sq ("if that") ("s okay"), ("if thats okay".toList)],
    .lits [("just think".toList)],
    .lits [sq ("i") ("m no expert"), ("im no expert".toList)],
    .lits [("kind of".toList), ("sort of".toList)] ]

/-- Assertive patterns, in source order. -/
def assertivePats : List Pat :=
  [ .feelWhen,
    .lits [("i think".toList)],
    .lits [("i believe".toList)],
    .lits [("i need".toList)],
    .lits [sq ("i") ("d like"), ("id like".toList)],
    .lits [sq ("let") ("s"), ("lets".toList)],
    .lits [("what do you think".toList)] ]

/-- Empathetic patterns, in source order. -/
def empatheticPats : List Pat :=
  [ .lits [("i understand".toList)],
    .lits [("i hear you".toList)],
    .lits [("that must be".toList)],
    .lits [("how do you feel".toList)],
    .lits [("i appreciate".toList)] ]

/-- Filler word vocabulary (line 448). -/
def fillerWords : List (List Char) :=
  [("um".toList), ("uh".toList), ("like".toList), ("you know".toList),
   ("basically".toList), ("literally".toList), ("actually".toList),
   ("honestly".toList)]

/-- Plain (case-sensitive) prefix test. -/
def startsSeq : List Char → List Char → Bool
  | [], _ => true
  | _ :: _, [] => false
  | a :: as, b :: bs => (a == b) && startsSeq as bs

/-- Plain substring containment, Python `needle in hay`. -/
def containsSub (needle : List Char) : List Char → Bool
  | [] => startsSeq needle []
  | c :: cs => startsSeq needle (c :: cs) || containsSub needle cs

/-- The detected filler words: `[f for f in fillers if f" {f} " in f" {lower} "]`
(line 449). -/
def foundFillers (t : List Char) : List (List Char) :=
  fillerWords.filter fun f =>
    containsSub (' ' :: (f ++ [' '])) (' ' :: (toLowerStr t ++ [' ']))

/-! ### Counts and the style classification (lines 421-476) -/

/-- Number of aggressive patterns matching the lowered text. -/
def aggrCount (t : List Char) : ℕ :=
  aggressivePats.countP fun p => patMatches p (toLowerStr t)

/-- Number of passive patterns matching the lowered text. -/
def passCount (t : List Char) : ℕ :=
  passivePats.countP fun p => patMatches p (toLowerStr t)

/-- Number of assertive patterns matching the lowered text. -/
def asstCount (t : List Char) : ℕ :=
  assertivePats.countP fun p => patMatches p (toLowerStr t)

/-- Number of empathetic patterns matching the lowered text. -/
def empaCount (t : List Char) : ℕ :=
  empatheticPats.countP fun p => patMatches p (toLowerStr t)

/-- Style labels, standing for the label strings of lines 454-471.  The
Python code later tests them with substring checks such as
`"AGGRESSIVE" in analysis["style"]`; over these six labels those checks
reduce to the predicates defined below. -/
inductive Style where
  | aggressive
  | somewhatAggressive
  | passive
  | assertiveEmpathetic
  | assertive
  | neutral
deriving DecidableEq, Repr

/-- Issue/strength notes.  The descriptive strings carry no logic, so each
note is identified by its pattern category and index, plus the three
voice notes appended by the fusion step. -/
inductive Note where
  | aggr (i : ℕ)
  | pass (i : ℕ)
  | asst (i : ℕ)
  | empa (i : ℕ)
  | voiceAgitated
  | voiceCalm
  | voiceEngaged
deriving DecidableEq, Repr

/-- The analysis record built by `analyze_interpersonal` (lines 366-375).
`overall` is only written at line 496; it is initialised to 0 here. -/
structure Analysis where
  style : Style
  tone : ℤ
  clarity : ℤ
  confidence : ℤ
  empathy : ℤ
  issues : List Note
  strengths : List Note
  fillers : List (List Char)
  overall : ℤ
deriving DecidableEq, Repr

/-- Issues appended during pattern detection: aggressive then passive
matches, in pattern order (lines 427-435). -/
def issuesOf (t : List Char) : List Note :=
  ((aggressivePats.enum.filter fun pr => patMatches pr.2 (toLowerStr t)).map
    fun pr => Note.aggr pr.1) ++
  ((passivePats.enum.filter fun pr => patMatches pr.2 (toLowerStr t)).map
    fun pr => Note.pass pr.1)

/-- Strengths appended during pattern detection: assertive then empathetic
matches, in pattern order (lines 437-445). -/
def strengthsOf (t : List Char) : List Note :=
  ((assertivePats.enum.filter fun pr => patMatches pr.2 (toLowerStr t)).map
    fun pr => Note.asst pr.1) ++
  ((empatheticPats.enum.filter fun pr => patMatches pr.2 (toLowerStr t)).map
    fun pr => Note.empa pr.1)

/-- The freshly initialised analysis (lines 366-375), with the issue,
strength and filler lists filled in by the detection pass. -/
def initAnalysis (t : List Char) : Analysis :=
  { style := .neutral, tone := 6, clarity := 7, confidence := 6, empathy := 5,
    issues := issuesOf t, strengths := strengthsOf t, fillers := foundFillers t,
    overall := 0 }

/-- The style/score branch of lines 453-474, applied to the counts. -/
def applyStyle (ac pc asc ec : ℕ) (a : Analysis) : Analysis :=
  if 2 ≤ ac then
    { a with style := .aggressive, tone := 3, confidence := 7, empathy := 2 }
  else if ac = 1 then
    { a with style := .somewhatAggressive, tone := 5 }
  else if 2 ≤ pc then
    { a with style := .passive, tone := 5, confidence := 3 }
  else if 2 ≤ asc ∧ 1 ≤ ec then
    { a with style := .assertiveEmpathetic, tone := 9, confidence := 8, empathy := 8 }
  else if 1 ≤ asc then
    { a with style := .assertive, tone := 8, confidence := 7 }
  else a

/-- The analysis right after the classification branch (lines 366-474),
before the filler-based clarity adjustment. -/
def styleStage (t : List Char) : Analysis :=
  applyStyle (aggrCount t) (passCount t) (asstCount t) (empaCount t) (initAnalysis t)

/-- Text-mode clarity score: `max(3, 10 - len(found_fillers) * 2)` (line 476). -/
def clarityFromCount (n : ℕ) : ℤ := max 3 (10 - 2 * (n : ℤ))

/-- The complete text-only analysis (lines 363-476): classification branch
followed by the filler clarity adjustment. -/
def textAnalysis (t : List Char) : Analysis :=
  { styleStage t with clarity := clarityFromCount (styleStage t).fillers.length }

/-! ### The rewrite substitutions of the coaching generator (lines 503-528) -/

/-- Try the alternatives in order at the current position (the alternative
order reflects the greedy optional groups of the source regexes; the
alternatives of one pattern are mutually exclusive). -/
def firstHit : List (List Char) → List Char → Option (Char × List Char)
  | [], _ => none
  | a :: as, s =>
      match ciConsume a s with
      | some (last, rest) => if boundaryAfterOk rest then some (last, rest) else firstHit as s
      | none => firstHit as s

/-- One pass of `re.sub(pattern, repl, s, flags=re.IGNORECASE)`: scan left
to right, replace each non-overlapping bounded match, resume after the
match end.  `fuel` only drives the recursion; `s.length + 1` always
suffices since every step consumes at least one character. -/
def subAllAux (alts : List (List Char)) (repl : List Char) :
    ℕ → Option Char → List Char → List Char
  | 0, _, s => s
  | _ + 1, _, [] => []
  | fuel + 1, prev, c :: cs =>
      if boundaryBefore prev then
        match firstHit alts (c :: cs) with
        | some (last, rest) => repl ++ subAllAux alts repl fuel (some last) rest
        | none => c :: subAllAux alts repl fuel (some c) cs
      else c :: subAllAux alts repl fuel (some c) cs

/-- `re.sub` with word-boundary-delimited literal alternatives. -/
def pySub (alts : List (List Char)) (repl : List Char) (s : List Char) : List Char :=
  subAllAux alts repl (s.length + 1) none s

/-- The four substitutions applied for an aggressive-family style
(lines 514-517), in source order, on the original (non-lowered) text. -/
def rewriteAggressive (t : List Char) : List Char :=
  let r1 := pySub [("you always".toList)] ("when this happens, I feel".toList) t
  let r2 := pySub [("you never".toList)] (sq ("when this doesn") ("t happen, I feel")) r1
  let r3 := pySub [("you should".toList)] (sq ("I") ("d appreciate if you could")) r2
  pySub [sq ("why didn") ("t you"), ("why didnt you".toList)] ("I noticed".toList) r3

/-- The three substitutions applied for the passive style (lines 526-528). -/
def rewritePassive (t : List Char) : List Char :=
  let r1 := pySub [("i guess".toList)] ("I think".toList) t
  let r2 := pySub [("maybe we could".toList)] ("I suggest we".toList) r1
  pySub [("sorry, but".toList), ("sorry but".toList)] [] r2

/-- Mirrors the Python test `"AGGRESSIVE" in analysis["style"]` over the six
label strings: true exactly for the two aggressive-family labels. -/
def styleMentionsAggressive : Style → Bool
  | .aggressive => true
  | .somewhatAggressive => true
  | _ => false

/-- Mirrors `"PASSIVE" in analysis["style"]`. -/
def styleMentionsPassive : Style → Bool
  | .passive => true
  | _ => false

/-- The rewritten message produced by the coaching generator (lines
503-528): substitutions for the aggressive family, then for passive;
other styles leave the text unchanged. -/
def rewriteMessage (t : List Char) : List Char :=
  let a := textAnalysis t
  if styleMentionsAggressive a.style then rewriteAggressive t
  else if styleMentionsPassive a.style then rewritePassive t
  else t

/-! ### Python rounding -/

/-- Python `round` to an integer: round half to even. -/
def pyRound (x : ℚ) : ℤ :=
  let f := ⌊x⌋
  let frac := x - (f : ℚ)
  if frac < 1 / 2 then f
  else if 1 / 2 < frac then f + 1
  else if f % 2 = 0 then f else f + 1

/-- Python `round(x, 1)`: round to a multiple of 1/10, half to even. -/
def pyRound1 (x : ℚ) : ℚ := (pyRound (10 * x) : ℚ) / 10

/-! ### Vocal feature scoring (`analyze_audio_features`, lines 1-203) -/

inductive VolumeLevel where
  | loud
  | soft
  | moderate
deriving DecidableEq, Repr

inductive PaceLevel where
  | fast
  | slow
  | moderate
deriving DecidableEq, Repr

inductive PitchLevel where
  | high
  | low
  | medium
  | unclear
deriving DecidableEq, Repr

inductive PitchVariety where
  | expressive
  | monotone
  | unclear
deriving DecidableEq, Repr

inductive ClarityLevel where
  | clear
  | unclear
  | moderate
deriving DecidableEq, Repr

inductive PauseLevel where
  | manyLong
  | natural
  | few
deriving DecidableEq, Repr

inductive EmotionalTone where
  | agitatedStressed
  | calmSad
  | engagedEnthusiastic
  | boredDisengaged
  | neutralControlled
deriving DecidableEq, Repr

/-- The raw statistics computed by librosa from the sample buffer; the
numeric feature extraction itself is external, these are its outputs. -/
structure RawVocal where
  duration : ℚ
  avgVolume : ℚ
  volumeVariation : ℚ
  pacePerSec : ℚ
  hasPitch : Bool
  avgPitch : ℚ
  pitchVariation : ℚ
  avgZcr : ℚ
  avgPause : ℚ
deriving DecidableEq, Repr

/-- Volume level thresholds (lines 22-30). -/
def volumeLevelOf (v : ℚ) : VolumeLevel :=
  if v > 3 / 20 then .loud else if v < 3 / 100 then .soft else .moderate

/-- Pace level thresholds (lines 39-47). -/
def paceLevelOf (p : ℚ) : PaceLevel :=
  if p > 4 then .fast else if p < 2 then .slow else .moderate

/-- Pitch level thresholds (lines 53-78). -/
def pitchLevelOf (raw : RawVocal) : PitchLevel :=
  if raw.hasPitch then
    if raw.avgPitch > 220 then .high
    else if raw.avgPitch < 100 then .low
    else .medium
  else .unclear

/-- Pitch variety thresholds (lines 67-78). -/
def pitchVarietyOf (raw : RawVocal) : PitchVariety :=
  if raw.hasPitch then
    if raw.pitchVariation > 50 then .expressive else .monotone
  else .unclear

/-- Clarity level thresholds (lines 84-92). -/
def clarityLevelOf (z : ℚ) : ClarityLevel :=
  if z > 3 / 20 then .clear else if z < 1 / 20 then .unclear else .moderate

/-- Pause level thresholds (lines 100-108). -/
def pauseLevelOf (p : ℚ) : PauseLevel :=
  if p > 3 / 2 then .manyLong else if p > 1 / 2 then .natural else .few

/-- Per-dimension volume score reported in the profile (line 156). -/
def volumeScoreOf : VolumeLevel → ℤ
  | .moderate => 8
  | .loud => 5
  | .soft => 4

/-- Per-dimension pace score (line 162). -/
def paceScoreOf : PaceLevel → ℤ
  | .moderate => 8
  | _ => 6

/-- Per-dimension pitch score (line 169). -/
def pitchScoreOf : PitchVariety → ℤ
  | .expressive => 8
  | _ => 4

/-- Per-dimension clarity score (line 174). -/
def clarityScoreOf : ClarityLevel → ℤ
  | .clear => 9
  | .moderate => 6
  | _ => 3

/-- Per-dimension pause score (line 180). -/
def pauseScoreOf : PauseLevel → ℤ
  | .natural => 8
  | _ => 5

/-- Volume contribution to the confidence score (lines 114-116). -/
def volDelta : VolumeLevel → ℤ
  | .moderate => 2
  | .loud => 1
  | .soft => -2

/-- Pace contribution (lines 119-121). -/
def paceDelta : PaceLevel → ℤ
  | .moderate => 2
  | .fast => -1
  | .slow => -1

/-- Pitch variety contribution (lines 124-125). -/
def varietyDelta : PitchVariety → ℤ
  | .expressive => 2
  | .monotone => -2
  | .unclear => 0

/-- Clarity contribution (lines 128-129). -/
def clarityDelta : ClarityLevel → ℤ
  | .clear => 2
  | .unclear => -2
  | .moderate => 0

/-- Pause contribution (lines 132-133). -/
def pauseDelta : PauseLevel → ℤ
  | .natural => 1
  | .manyLong => -2
  | .few => 0

/-- `max(1, min(10, x))` (line 135). -/
def clampScore (x : ℤ) : ℤ := max 1 (min 10 x)

/-- The vocal confidence score: baseline 5 plus the per-dimension deltas,
clamped to [1, 10] (lines 110-135). -/
def vocalConfidence (v : VolumeLevel) (p : PaceLevel) (pv : PitchVariety)
    (cl : ClarityLevel) (ps : PauseLevel) : ℤ :=
  clampScore (5 + volDelta v + paceDelta p + varietyDelta pv + clarityDelta cl + pauseDelta ps)

/-- Emotional tone rule list (lines 137-147).  Note: the first rule tests
the raw statistics, the second tests `avg_volume < 0.05` (not the "soft"
level threshold 0.03) together with the low pitch level, and rules three
and four test the derived levels. -/
def emotionalToneOf (raw : RawVocal) : EmotionalTone :=
  if raw.avgVolume > 3 / 20 ∧ raw.pacePerSec > 4 then .agitatedStressed
  else if raw.avgVolume < 1 / 20 ∧ pitchLevelOf raw = .low then .calmSad
  else if pitchVarietyOf raw = .expressive ∧ volumeLevelOf raw.avgVolume = .moderate then
    .engagedEnthusiastic
  else if pitchVarietyOf raw = .monotone ∧ paceLevelOf raw.pacePerSec = .slow then
    .boredDisengaged
  else .neutralControlled

/-- Summand for volume in the overall score expression (line 185):
`8 if volume_level == "moderate" else 5`. -/
def overallVolumeTerm : VolumeLevel → ℤ
  | .moderate => 8
  | _ => 5

/-- Summand for pace in the overall score expression (line 186). -/
def overallPaceTerm : PaceLevel → ℤ
  | .moderate => 8
  | _ => 6

/-- Summand for pitch in the overall score expression (line 187). -/
def overallPitchTerm : PitchVariety → ℤ
  | .expressive => 8
  | _ => 4

/-- Summand for clarity in the overall score expression (line 188):
`9 if clarity_level == "clear" else 6`. -/
def overallClarityTerm : ClarityLevel → ℤ
  | .clear => 9
  | _ => 6

/-- Summand for pauses in the overall score expression (line 189). -/
def overallPauseTerm : PauseLevel → ℤ
  | .natural => 8
  | _ => 5

/-- The successful vocal profile returned by `analyze_audio_features`
(lines 149-191). -/
structure VocalProfile where
  volumeLevel : VolumeLevel
  volumeScore : ℤ
  paceLevel : PaceLevel
  paceScore : ℤ
  pitchLevel : PitchLevel
  pitchVariety : PitchVariety
  pitchScore : ℤ
  clarityLevel : ClarityLevel
  clarityScore : ℤ
  pauseLevel : PauseLevel
  pauseScore : ℤ
  confidenceScore : ℤ
  emotionalTone : EmotionalTone
  overallScore : ℚ
deriving DecidableEq, Repr

/-- Build the success profile from the raw statistics. -/
def buildProfile (raw : RawVocal) : VocalProfile :=
  let v := volumeLevelOf raw.avgVolume
  let p := paceLevelOf raw.pacePerSec
  let pv := pitchVarietyOf raw
  let cl := clarityLevelOf raw.avgZcr
  let ps := pauseLevelOf raw.avgPause
  { volumeLevel := v, volumeScore := volumeScoreOf v,
    paceLevel := p, paceScore := paceScoreOf p,
    pitchLevel := pitchLevelOf raw, pitchVariety := pv, pitchScore := pitchScoreOf pv,
    clarityLevel := cl, clarityScore := clarityScoreOf cl,
    pauseLevel := ps, pauseScore := pauseScoreOf ps,
    confidenceScore := vocalConfidence v p pv cl ps,
    emotionalTone := emotionalToneOf raw,
    overallScore := pyRound1 (((overallVolumeTerm v + overallPaceTerm p +
      overallPitchTerm pv + overallClarityTerm cl + overallPauseTerm ps : ℤ) : ℚ) / 5) }

/-- Result statuses of `analyze_audio_features`: success, the
librosa-missing "limited" status, or an error (too-short audio or an
extraction exception). -/
inductive AudioFeatures where
  | success (p : VocalProfile)
  | limited
  | failed
deriving DecidableEq, Repr

/-- `analyze_audio_features` on readable audio: the minimum-duration guard
(line 14) and otherwise the success profile. -/
def analyzeAudioFeatures (raw : RawVocal) : AudioFeatures :=
  if raw.duration < 1 / 2 then .failed else .success (buildProfile raw)

/-! ### Signal fusion and the overall score (lines 479-499) -/

/-- The fusion pass: when a successful vocal profile is present, override
clarity and confidence with the vocal scores, adjust the tone for the
emotional tone label, append the voice note, then (in every case) compute
the overall score as Python `round(sum/4)`.  The Python conditions are
substring tests on the emotional-tone label string; over the five labels
they reduce to the equalities used here. -/
def finalize (a : Analysis) (af : Option AudioFeatures) : Analysis :=
  let a1 : Analysis :=
    match af with
    | some (.success p) =>
        let b := { a with clarity := p.clarityScore, confidence := p.confidenceScore }
        if p.emotionalTone = .agitatedStressed then
          { b with tone := min b.tone 4, issues := b.issues ++ [.voiceAgitated] }
        else if p.emotionalTone = .calmSad then
          { b with tone := max b.tone 7, strengths := b.strengths ++ [.voiceCalm] }
        else if p.emotionalTone = .engagedEnthusiastic then
          { b with strengths := b.strengths ++ [.voiceEngaged] }
        else b
    | _ => a
  { a1 with overall := pyRound (((a1.tone + a1.clarity + a1.confidence + a1.empathy : ℤ) : ℚ) / 4) }

/-! ### The audio input pipeline (lines 231-342) -/

/-- Outcome of the external transcription collaborator. -/
inductive TranscriptOutcome where
  | ok (text : List Char)
  | unknownValue
  | requestFailed
deriving DecidableEq, Repr

/-- Pieces of work the audio path can perform, in order of appearance. -/
inductive AudioStep where
  | checkExists
  | checkSize
  | loadAudio
  | createTemp
  | exportWav
  | transcribe
  | extractFeatures
deriving DecidableEq, Repr

/-- Result of the audio stage: an early error, or the transcript plus the
optional vocal features handed to the classification stage. -/
inductive StageResult where
  | err (msg : List Char)
  | proceed (text : List Char) (features : Option AudioFeatures)
deriving DecidableEq, Repr

/-- The audio stage outcome together with its effect trace: the steps
performed and the number of temporary files created and deleted. -/
structure StageOutcome where
  result : StageResult
  steps : List AudioStep
  tempsCreated : ℕ
  tempsDeleted : ℕ
deriving DecidableEq, Repr

/-- Environment for one audio-processing call: the filesystem and
collaborator responses the code observes. -/
structure AudioEnv where
  fileExists : Bool
  fileSize : ℕ
  loadOk : Bool
  exportOk : Bool
  transcriptResult : TranscriptOutcome
  featuresResult : AudioFeatures
deriving DecidableEq, Repr

/-- Accepted audio extensions (line 236). -/
def validAudioExtensions : List (List Char) :=
  [(".wav".toList), (".mp3".toList), (".m4a".toList), (".mp4".toList),
   (".ogg".toList), (".flac".toList)]

/-- The error message of lines 240-243.  The f-string interpolates the
extension; the format list is quoted verbatim. -/
def unsupportedFormatMsg (ext : List Char) : List Char :=
  ("Unsupported audio format: ".toList) ++ ext ++
    (". Please upload: WAV, MP3, M4A, MP4, OGG, or FLAC".toList)

/-- Characters after the last path separator. -/
def lastComponent (p : List Char) : List Char :=
  p.foldl (fun acc c => if c = '/' then [] else acc ++ [c]) []

/-- `os.path.splitext(p)[1]`: the extension starting at the last dot of the
basename, empty when there is no dot or when every character before that
dot is itself a dot (leading-dot files have no extension). -/
def splitextExt (p : List Char) : List Char :=
  let base := lastComponent p
  let rev := base.reverse
  let pre := rev.takeWhile fun c => c ≠ '.'
  if pre.length = rev.length then []
  else
    let root := (rev.drop (pre.length + 1)).reverse
    if root.all (fun c => c = '.') then [] else '.' :: pre.reverse

/-- Python `s.endswith(t)` (case-sensitive, as at line 271). -/
def listEndsWith (s t : List Char) : Bool := startsSeq t.reverse s.reverse

/-- The steps after a successful conversion (or for a `.wav` input):
transcription, then feature extraction; an error-status feature result is
dropped to `none` (lines 306-335). -/
def afterConvert (env : AudioEnv) (steps0 : List AudioStep) (created : ℕ) : StageOutcome :=
  match env.transcriptResult with
  | .unknownValue =>
      { result := .err (("Could not understand the audio. Please ensure: (1) Clear speech, " ++
          "(2) Minimal background noise, (3) Good microphone quality. Try recording again " ++
          "or type your message instead.").toList),
        steps := steps0 ++ [.transcribe], tempsCreated := created, tempsDeleted := 0 }
  | .requestFailed =>
      { result := .err (("Speech recognition service is temporarily unavailable. Please try " ++
          "again in a moment, or type your message instead.").toList),
        steps := steps0 ++ [.transcribe], tempsCreated := created, tempsDeleted := 0 }
  | .ok t =>
      let feats : Option AudioFeatures :=
        match env.featuresResult with
        | .failed => none
        | f => some f
      { result := .proceed t feats,
        steps := steps0 ++ [.transcribe, .extractFeatures],
        tempsCreated := created, tempsDeleted := 0 }

/-- The validated part of the audio path (lines 246-335): existence and
size guards, the conversion (which creates a temporary WAV with
`delete=False` and never deletes it on any path), transcription and
feature extraction. -/
def runValidatedStage (path : List Char) (env : AudioEnv) : StageOutcome :=
  if env.fileExists then
    if env.fileSize = 0 then
      { result := .err ("Audio file is empty. Please upload a valid audio recording.".toList),
        steps := [.checkExists, .checkSize], tempsCreated := 0, tempsDeleted := 0 }
    else if 50 * 1024 * 1024 < env.fileSize then
      { result := .err ("Audio file too large. Maximum size is 50MB.".toList),
        steps := [.checkExists, .checkSize], tempsCreated := 0, tempsDeleted := 0 }
    else if listEndsWith path (".wav".toList) then
      afterConvert env [.checkExists, .checkSize] 0
    else if env.loadOk then
      if env.exportOk then
        afterConvert env [.checkExists, .checkSize, .loadAudio, .createTemp, .exportWav] 1
      else
        { result := .err (("Audio conversion failed. Please try uploading a WAV file " ++
            "instead, or type your message directly.").toList),
          steps := [.checkExists, .checkSize, .loadAudio, .createTemp, .exportWav],
          tempsCreated := 1, tempsDeleted := 0 }
    else
      { result := .err (("Audio conversion failed. Please try uploading a WAV file " ++
          "instead, or type your message directly.").toList),
        steps := [.checkExists, .checkSize, .loadAudio], tempsCreated := 0, tempsDeleted := 0 }
  else
    { result := .err (("Audio file not found: ".toList) ++ path),
      steps := [.checkExists], tempsCreated := 0, tempsDeleted := 0 }

/-- The whole audio stage (lines 231-342): the extension whitelist is
checked first; any other extension returns immediately. -/
def runAudioStage (path : List Char) (env : AudioEnv) : StageOutcome :=
  if toLowerStr (splitextExt path) ∈ validAudioExtensions then runValidatedStage path env
  else
    { result := .err (unsupportedFormatMsg (toLowerStr (splitextExt path))),
      steps := [], tempsCreated := 0, tempsDeleted := 0 }

/-! ### Concrete inputs used by the theorems below -/

/-- A text matching two aggressive patterns. -/
def doubleAggrInput : List Char := ("you always and you never do this".toList)

/-- A text matching three aggressive patterns, two of which have no
substitution rule. -/
def roundTripInput : List Char :=
  ("you always do this and you need to stop and whats wrong with you".toList)

/-- The input of Example 1 of the specification. -/
def exampleOneInput : List Char := ("You always ignore my suggestions".toList)

/-- A text containing three filler words. -/
def fillerSampleInput : List Char := ("um this is basically fine honestly".toList)

/-- Raw vocal statistics giving volume soft, pace moderate, pitch monotone,
clarity unclear and pauses few. -/
def softUnclearStats : RawVocal :=
  { duration := 10, avgVolume := 1 / 50, volumeVariation := 0, pacePerSec := 3,
    hasPitch := true, avgPitch := 150, pitchVariation := 10, avgZcr := 1 / 100,
    avgPause := 1 / 10 }

/-- Raw vocal statistics with mean energy 0.04 (volume level moderate,
since 0.03 ≤ 0.04) and a low pitch. -/
def lowPitchBetweenStats : RawVocal :=
  { duration := 10, avgVolume := 1 / 25, volumeVariation := 0, pacePerSec := 3,
    hasPitch := true, avgPitch := 80, pitchVariation := 10, avgZcr := 1 / 10,
    avgPause := 1 }

/-- A plain text-only analysis record. -/
def sampleAnalysis : Analysis :=
  { style := .neutral, tone := 6, clarity := 7, confidence := 6, empathy := 5,
    issues := [], strengths := [], fillers := [], overall := 0 }

/-- A successful vocal profile with an agitated/stressed emotional tone. -/
def agitatedProfile : VocalProfile :=
  { volumeLevel := .loud, volumeScore := 5, paceLevel := .fast, paceScore := 6,
    pitchLevel := .medium, pitchVariety := .monotone, pitchScore := 4,
    clarityLevel := .moderate, clarityScore := 6, pauseLevel := .few, pauseScore := 5,
    confidenceScore := 3, emotionalTone := .agitatedStressed, overallScore := 5 }

/-- An environment in which every audio collaborator call succeeds. -/
def mp3EnvOk : AudioEnv :=
  { fileExists := true, fileSize := 1000, loadOk := true, exportOk := true,
    transcriptResult := .ok ("i feel fine".toList), featuresResult := .limited }

/-- The same environment with a failing WAV export. -/
def mp3EnvExportFail : AudioEnv := { mp3EnvOk with exportOk := false }

/-- A non-WAV audio path with a whitelisted extension. -/
def mp3Path : List Char := ("voice.mp3".toList)

/-! ### Claim theorems -/

/-- C1: for every input text, the text style classification is decided by
the first satisfied branch in the fixed order aggressive_count ≥ 2 (style
AGGRESSIVE, tone 3), aggressive_count = 1 (SOMEWHAT_AGGRESSIVE, tone 5),
passive_count ≥ 2 (PASSIVE, tone 5, confidence 3), assertive_count ≥ 2 and
empathetic_count ≥ 1 (ASSERTIVE_EMPATHETIC, tone 9, confidence 8,
empathy 8), assertive_count ≥ 1 (ASSERTIVE, tone 8, confidence 7), and
otherwise NEUTRAL with the default scores tone 6, clarity 7, confidence 6,
empathy 5. -/
theorem text_style_precedence (t : List Char) :
    (2 ≤ aggrCount t →
      (styleStage t).style = .aggressive ∧ (styleStage t).tone = 3) ∧
    (aggrCount t = 1 →
      (styleStage t).style = .somewhatAggressive ∧ (styleStage t).tone = 5) ∧
    (aggrCount t = 0 → 2 ≤ passCount t →
      (styleStage t).style = .passive ∧ (styleStage t).tone = 5 ∧
        (styleStage t).confidence = 3) ∧
    (aggrCount t = 0 → passCount t < 2 → 2 ≤ asstCount t → 1 ≤ empaCount t →
      (styleStage t).style = .assertiveEmpathetic ∧ (styleStage t).tone = 9 ∧
        (styleStage t).confidence = 8 ∧ (styleStage t).empathy = 8) ∧
    (aggrCount t = 0 → passCount t < 2 → ¬(2 ≤ asstCount t ∧ 1 ≤ empaCount t) →
      1 ≤ asstCount t →
      (styleStage t).style = .assertive ∧ (styleStage t).tone = 8 ∧
        (styleStage t).confidence = 7) ∧
    (aggrCount t = 0 → passCount t < 2 → asstCount t = 0 →
      (styleStage t).style = .neutral ∧ (styleStage t).tone = 6 ∧
        (styleStage t).clarity = 7 ∧ (styleStage t).confidence = 6 ∧
        (styleStage t).empathy = 5) := by
  refine ⟨?_, ?_, ?_, ?_, ?_, ?_⟩
  · intro h
    unfold styleStage applyStyle
    rw [if_pos h]
    exact ⟨rfl, rfl⟩
  · intro h
    unfold styleStage applyStyle
    rw [if_neg (by omega : ¬ 2 ≤ aggrCount t), if_pos h]
    exact ⟨rfl, rfl⟩
  · intro h0 h
    unfold styleStage applyStyle
    rw [if_neg (by omega : ¬ 2 ≤ aggrCount t), if_neg (by omega : ¬ aggrCount t = 1),
      if_pos h]
    exact ⟨rfl, rfl, rfl⟩
  · intro h0 h1 h2 h3
    unfold styleStage applyStyle
    rw [if_neg (by omega : ¬ 2 ≤ aggrCount t), if_neg (by omega : ¬ aggrCount t = 1),
      if_neg (by omega : ¬ 2 ≤ passCount t), if_pos ⟨h2, h3⟩]
    exact ⟨rfl, rfl, rfl, rfl⟩
  · intro h0 h1 h2 h3
    unfold styleStage applyStyle
    rw [if_neg (by omega : ¬ 2 ≤ aggrCount t), if_neg (by omega : ¬ aggrCount t = 1),
      if_neg (by omega : ¬ 2 ≤ passCount t), if_neg h2, if_pos h3]
    exact ⟨rfl, rfl, rfl⟩
  · intro h0 h1 h2
    unfold styleStage applyStyle
    rw [if_neg (by omega : ¬ 2 ≤ aggrCount t), if_neg (by omega : ¬ aggrCount t = 1),
      if_neg (by omega : ¬ 2 ≤ passCount t),
      if_neg (by omega : ¬ (2 ≤ asstCount t ∧ 1 ≤ empaCount t)),
      if_neg (by omega : ¬ 1 ≤ asstCount t)]
    exact ⟨rfl, rfl, rfl, rfl, rfl⟩

/-- Witness for C1 at a concrete double-aggressive input. -/
theorem text_style_precedence_witness :
    2 ≤ aggrCount doubleAggrInput ∧
    (styleStage doubleAggrInput).style = .aggressive ∧
    (styleStage doubleAggrInput).tone = 3 :=
  ⟨by decide, (text_style_precedence doubleAggrInput).1 (by decide)⟩

/-- C2: with a successful vocal profile, fusion overrides clarity and
confidence with the vocal scores, clamps the tone down to at most 4 for an
agitated/stressed tone (appending an issue note) and up to at least 7 for
a calm tone (appending a strength note), leaves the tone unchanged
otherwise, never changes the empathy score, and recomputes the overall
score as the rounded mean of the four sub-scores after the override;
without a successful profile the text-only analysis is final (only the
overall score is computed). -/
theorem signal_fusion_overrides :
    (∀ (a : Analysis) (p : VocalProfile),
      (finalize a (some (.success p))).clarity = p.clarityScore ∧
      (finalize a (some (.success p))).confidence = p.confidenceScore ∧
      (finalize a (some (.success p))).empathy = a.empathy ∧
      (p.emotionalTone = .agitatedStressed →
        (finalize a (some (.success p))).tone = min a.tone 4 ∧
        (finalize a (some (.success p))).issues = a.issues ++ [.voiceAgitated]) ∧
      (p.emotionalTone = .calmSad →
        (finalize a (some (.success p))).tone = max a.tone 7 ∧
        (finalize a (some (.success p))).strengths = a.strengths ++ [.voiceCalm]) ∧
      (p.emotionalTone ≠ .agitatedStressed → p.emotionalTone ≠ .calmSad →
        (finalize a (some (.success p))).tone = a.tone) ∧
      (finalize a (some (.success p))).overall =
        pyRound ((((finalize a (some (.success p))).tone +
          (finalize a (some (.success p))).clarity +
          (finalize a (some (.success p))).confidence +
          (finalize a (some (.success p))).empathy : ℤ) : ℚ) / 4)) ∧
    (∀ (a : Analysis) (af : Option AudioFeatures),
      (∀ p : VocalProfile, af ≠ some (.success p)) →
      finalize a af =
        { a with overall := pyRound (((a.tone + a.clarity + a.confidence +
            a.empathy : ℤ) : ℚ) / 4) }) := by
  constructor
  · intro a p
    cases hp : p.emotionalTone <;> simp [finalize, hp]
  · intro a af h
    match af with
    | none => simp [finalize]
    | some .limited => simp [finalize]
    | some .failed => simp [finalize]
    | some (.success p) => exact absurd rfl (h p)

/-- Witness for C2: an agitated profile clamps the tone and appends the
issue note; with no vocal features the analysis only gains its overall
score. -/
theorem signal_fusion_overrides_witness :
    ((finalize sampleAnalysis (some (.success agitatedProfile))).tone =
        min sampleAnalysis.tone 4 ∧
      (finalize sampleAnalysis (some (.success agitatedProfile))).issues =
        sampleAnalysis.issues ++ [.voiceAgitated]) ∧
    finalize sampleAnalysis none =
      { sampleAnalysis with overall := pyRound (((sampleAnalysis.tone +
          sampleAnalysis.clarity + sampleAnalysis.confidence +
          sampleAnalysis.empathy : ℤ) : ℚ) / 4) } :=
  ⟨(signal_fusion_overrides.1 sampleAnalysis agitatedProfile).2.2.2.1 rfl,
   signal_fusion_overrides.2 sampleAnalysis none (fun _ h => Option.noConfusion h)⟩

/-- C3 (failing-input evaluation): a text matching the aggressive patterns
"you always", "you need to" and "whats wrong with you" is classified
AGGRESSIVE; the rewrite substitutions change it (only "you always" has a
rule), yet the rewritten message is classified AGGRESSIVE again, because
the substitution rules cover only four of the seven aggressive patterns. -/
theorem rewrite_round_trip_violation :
    (textAnalysis roundTripInput).style = .aggressive ∧
    rewriteMessage roundTripInput ≠ roundTripInput ∧
    (textAnalysis (rewriteMessage roundTripInput)).style = .aggressive := by
  refine ⟨by decide, by decide, by decide⟩

/-- C4 (counterexample): on "You always ignore my suggestions" only one
aggressive pattern matches, so the style is SOMEWHAT_AGGRESSIVE, not
AGGRESSIVE, and the tone score is 5, not 3. -/
theorem example_one_counterexample :
    (textAnalysis exampleOneInput).style = .somewhatAggressive ∧
    (textAnalysis exampleOneInput).style ≠ .aggressive ∧
    (textAnalysis exampleOneInput).tone ≠ 3 := by
  refine ⟨by decide, by decide, by decide⟩

/-- C4 (amended): for the input "You always ignore my suggestions" with no
audio, the analysis returns style SOMEWHAT_AGGRESSIVE with tone score 5,
and the rewritten message starts with "when this happens, I feel". -/
theorem example_one_amended :
    (textAnalysis exampleOneInput).style = .somewhatAggressive ∧
    (textAnalysis exampleOneInput).tone = 5 ∧
    ∃ rest, rewriteMessage exampleOneInput =
      ("when this happens, I feel".toList) ++ rest := by
  refine ⟨by decide, by decide, ⟨(" ignore my suggestions".toList), by decide⟩⟩

/-- C5 (failing-input evaluation): for a successfully scored profile with
volume soft (score 4), pace moderate (8), pitch monotone (4), clarity
unclear (3) and pauses few (5), the reported overall score is 5.6 while
the rounded mean of the five reported dimension scores is 24/5 = 4.8: the
overall-score expression counts soft volume as 5 and unclear clarity as 6,
contradicting the per-dimension scores in the same profile. -/
theorem overall_vocal_score_divergence :
    analyzeAudioFeatures softUnclearStats = .success (buildProfile softUnclearStats) ∧
    (buildProfile softUnclearStats).volumeLevel = .soft ∧
    (buildProfile softUnclearStats).volumeScore = 4 ∧
    (buildProfile softUnclearStats).clarityLevel = .unclear ∧
    (buildProfile softUnclearStats).clarityScore = 3 ∧
    (buildProfile softUnclearStats).volumeScore + (buildProfile softUnclearStats).paceScore +
      (buildProfile softUnclearStats).pitchScore +
      (buildProfile softUnclearStats).clarityScore +
      (buildProfile softUnclearStats).pauseScore = 24 ∧
    (buildProfile softUnclearStats).overallScore = 28 / 5 ∧
    (buildProfile softUnclearStats).overallScore ≠
      pyRound1 ((((buildProfile softUnclearStats).volumeScore +
        (buildProfile softUnclearStats).paceScore +
        (buildProfile softUnclearStats).pitchScore +
        (buildProfile softUnclearStats).clarityScore +
        (buildProfile softUnclearStats).pauseScore : ℤ) : ℚ) / 5) := by
  norm_num [analyzeAudioFeatures, buildProfile, volumeLevelOf, paceLevelOf, pitchLevelOf,
    pitchVarietyOf, clarityLevelOf, pauseLevelOf, volumeScoreOf, paceScoreOf, pitchScoreOf,
    clarityScoreOf, pauseScoreOf, overallVolumeTerm, overallPaceTerm, overallPitchTerm,
    overallClarityTerm, overallPauseTerm, vocalConfidence, clampScore, volDelta, paceDelta,
    varietyDelta, clarityDelta, pauseDelta, emotionalToneOf, pyRound1, pyRound,
    softUnclearStats]

/-- C6 (counterexample): raw statistics with mean energy 0.04 and low
pitch receive the calm/sad emotional tone although the volume level is
moderate, not soft — the calm/sad rule tests mean energy < 0.05, not the
soft-volume threshold 0.03. -/
theorem calm_sad_counterexample :
    (buildProfile lowPitchBetweenStats).emotionalTone = .calmSad ∧
    (buildProfile lowPitchBetweenStats).volumeLevel = .moderate ∧
    (buildProfile lowPitchBetweenStats).volumeLevel ≠ .soft := by
  have h2 : (buildProfile lowPitchBetweenStats).volumeLevel = .moderate := by
    norm_num [buildProfile, volumeLevelOf, lowPitchBetweenStats]
  refine ⟨?_, h2, ?_⟩
  · norm_num [buildProfile, emotionalToneOf, pitchLevelOf, volumeLevelOf, pitchVarietyOf,
      lowPitchBetweenStats]
  · rw [h2]
    decide

/-- C6 (amended): the emotional tone is assigned by the ordered rule list,
first match wins — mean energy > 0.15 and pace > 4 give agitated/stressed;
mean energy < 0.05 and low pitch give calm/sad (so calm/sad needs mean
energy below 0.05, not the soft volume level); expressive pitch variety
and moderate volume give engaged/enthusiastic; monotone and slow give
bored/disengaged; otherwise neutral/controlled. -/
theorem emotional_tone_rules (raw : RawVocal) :
    (buildProfile raw).emotionalTone = emotionalToneOf raw ∧
    (emotionalToneOf raw = .agitatedStressed ↔
      raw.avgVolume > 3 / 20 ∧ raw.pacePerSec > 4) ∧
    (emotionalToneOf raw = .calmSad ↔
      ¬(raw.avgVolume > 3 / 20 ∧ raw.pacePerSec > 4) ∧
        raw.avgVolume < 1 / 20 ∧ pitchLevelOf raw = .low) ∧
    (emotionalToneOf raw = .engagedEnthusiastic ↔
      ¬(raw.avgVolume > 3 / 20 ∧ raw.pacePerSec > 4) ∧
        ¬(raw.avgVolume < 1 / 20 ∧ pitchLevelOf raw = .low) ∧
        pitchVarietyOf raw = .expressive ∧ volumeLevelOf raw.avgVolume = .moderate) ∧
    (emotionalToneOf raw = .boredDisengaged ↔
      ¬(raw.avgVolume > 3 / 20 ∧ raw.pacePerSec > 4) ∧
        ¬(raw.avgVolume < 1 / 20 ∧ pitchLevelOf raw = .low) ∧
        ¬(pitchVarietyOf raw = .expressive ∧ volumeLevelOf raw.avgVolume = .moderate) ∧
        pitchVarietyOf raw = .monotone ∧ paceLevelOf raw.pacePerSec = .slow) ∧
    (emotionalToneOf raw = .neutralControlled ↔
      ¬(raw.avgVolume > 3 / 20 ∧ raw.pacePerSec > 4) ∧
        ¬(raw.avgVolume < 1 / 20 ∧ pitchLevelOf raw = .low) ∧
        ¬(pitchVarietyOf raw = .expressive ∧ volumeLevelOf raw.avgVolume = .moderate) ∧
        ¬(pitchVarietyOf raw = .monotone ∧ paceLevelOf raw.pacePerSec = .slow)) := by
  refine ⟨rfl, ?_⟩
  unfold emotionalToneOf
  split_ifs with h1 h2 h3 h4 <;> simp_all

/-- Witness for C6 (amended), applied at the counterexample statistics. -/
theorem emotional_tone_rules_witness :
    (buildProfile lowPitchBetweenStats).emotionalTone =
      emotionalToneOf lowPitchBetweenStats :=
  (emotional_tone_rules lowPitchBetweenStats).1

/-- C7: for every combination of the five qualitative dimension levels,
the vocal confidence score — baseline 5 plus the fixed per-dimension
deltas, clamped — lies in [1, 10]. -/
theorem vocal_confidence_clamped (v : VolumeLevel) (p : PaceLevel) (pv : PitchVariety)
    (cl : ClarityLevel) (ps : PauseLevel) :
    1 ≤ vocalConfidence v p pv cl ps ∧ vocalConfidence v p pv cl ps ≤ 10 := by
  unfold vocalConfidence clampScore
  exact ⟨le_max_left 1 _, max_le (by norm_num) (min_le_left 10 _)⟩

/-- C8: in text mode the clarity score equals
max(3, 10 − 2 × filler_count); it is monotonically non-increasing in the
filler count and never drops below 3. -/
theorem clarity_filler_formula :
    (∀ t : List Char,
      (textAnalysis t).clarity = clarityFromCount (foundFillers t).length ∧
      (textAnalysis t).clarity = max 3 (10 - 2 * ((foundFillers t).length : ℤ)) ∧
      3 ≤ (textAnalysis t).clarity) ∧
    (∀ m n : ℕ, m ≤ n → clarityFromCount n ≤ clarityFromCount m) := by
  constructor
  · intro t
    have hfill : (styleStage t).fillers = foundFillers t := by
      unfold styleStage applyStyle
      split_ifs <;> rfl
    have hclar : (textAnalysis t).clarity = clarityFromCount (foundFillers t).length := by
      unfold textAnalysis
      rw [hfill]
    refine ⟨hclar, ?_, ?_⟩
    · rw [hclar]; rfl
    · rw [hclar]; exact le_max_left 3 _
  · intro m n h
    unfold clarityFromCount
    exact max_le_max le_rfl (by omega)

/-- Witness for C8 at a three-filler input. -/
theorem clarity_filler_formula_witness :
    (textAnalysis fillerSampleInput).clarity =
      max 3 (10 - 2 * ((foundFillers fillerSampleInput).length : ℤ)) ∧
    clarityFromCount 3 ≤ clarityFromCount 1 ∧
    3 ≤ (textAnalysis fillerSampleInput).clarity :=
  ⟨(clarity_filler_formula.1 fillerSampleInput).2.1,
   clarity_filler_formula.2 1 3 (by decide),
   (clarity_filler_formula.1 fillerSampleInput).2.2⟩

/-- C9 (failing-input evaluation): converting "voice.mp3" creates one
temporary WAV file, and no exit path deletes it — neither the fully
successful run nor the failing-export run releases the temporary
resource (the source opens it with delete=False and never unlinks it). -/
theorem temp_wav_leak :
    (runAudioStage mp3Path mp3EnvOk).tempsCreated = 1 ∧
    (runAudioStage mp3Path mp3EnvOk).tempsDeleted = 0 ∧
    (runAudioStage mp3Path mp3EnvOk).result =
      .proceed ("i feel fine".toList) (some .limited) ∧
    (runAudioStage mp3Path mp3EnvExportFail).tempsCreated = 1 ∧
    (runAudioStage mp3Path mp3EnvExportFail).tempsDeleted = 0 := by
  refine ⟨by decide, by decide, by decide, by decide, by decide⟩

/-- C10: any audio path whose (lower-cased) extension is outside the
whitelist returns the input-validation error before any other step — no
existence, size, decode, transcription or feature work is performed — and
the message ends with the list of accepted formats. -/
theorem unsupported_format_early_error (p : List Char) (env : AudioEnv)
    (h : toLowerStr (splitextExt p) ∉ validAudioExtensions) :
    runAudioStage p env =
      { result := .err (unsupportedFormatMsg (toLowerStr (splitextExt p))),
        steps := [], tempsCreated := 0, tempsDeleted := 0 } ∧
    ∃ pre, unsupportedFormatMsg (toLowerStr (splitextExt p)) =
      pre ++ ("WAV, MP3, M4A, MP4, OGG, or FLAC".toList) := by
  constructor
  · unfold runAudioStage
    rw [if_neg h]
  · refine ⟨("Unsupported audio format: ".toList) ++ toLowerStr (splitextExt p) ++
      (". Please upload: ".toList), ?_⟩
    have hsplit : (". Please upload: WAV, MP3, M4A, MP4, OGG, or FLAC".toList) =
        (". Please upload: ".toList) ++ ("WAV, MP3, M4A, MP4, OGG, or FLAC".toList) := by
      decide
    simp [unsupportedFormatMsg, hsplit, List.append_assoc]

/-- Witness for C10 at the ".aac" path of Example 5 of the specification. -/
theorem unsupported_format_early_error_witness :
    toLowerStr (splitextExt ("recording.aac".toList)) ∉ validAudioExtensions ∧
    (runAudioStage ("recording.aac".toList) mp3EnvOk =
      { result := .err (unsupportedFormatMsg
          (toLowerStr (splitextExt ("recording.aac".toList)))),
        steps := [], tempsCreated := 0, tempsDeleted := 0 } ∧
    ∃ pre, unsupportedFormatMsg (toLowerStr (splitextExt ("recording.aac".toList))) =
      pre ++ ("WAV, MP3, M4A, MP4, OGG, or FLAC".toList)) :=
  ⟨by decide, unsupported_format_early_error ("recording.aac".toList) mp3EnvOk (by decide)⟩

end MindMate
